import Mathlib

/-!
Verification development for the neuroconv repository.

Part 1 models the dataset-backend configuration subsystem (the
DatasetConfigurationPlanner of the specification).  The repository ships only
the unit test for this subsystem
(tests/test_minimal/test_tools/test_backend_and_dataset_configuration/
test_zarr_backend_configuration_model.py); the implementation itself
(ZarrBackendConfiguration and the chunk/buffer heuristic behind
mock_ZarrBackendConfiguration) is not among the provided source files, so the
planner is modelled from the specification, with the literal values of spec
section 8 taken as the authoritative anchor, as spec section 9 directs.

Part 2 embeds two pieces of glue code that are present in the sources:
the sampling-frequency resolution of ScanImageImagingInterface.__init__
(src/src/neuroconv/datainterfaces/ophys/scanimage/scanimageimaginginterface.py)
and the constructor of MockSpikeGLXNIDQInterface, including its trace-array
allocation step (src/src/neuroconv/tools/testing/mock_interfaces.py).
-/

/-- Fuel-driven 2-adic valuation: `v2Aux fuel m` counts how many times `2`
divides `m`, recursing on `fuel` so that the kernel can evaluate it. -/
def v2Aux : Nat → Nat → Nat
  | 0, _ => 0
  | fuel + 1, m => if m % 2 = 0 ∧ m ≠ 0 then v2Aux fuel (m / 2) + 1 else 0

/-- The 2-adic valuation of `m` (largest `k` with `2 ^ k` dividing `m`). -/
def v2 (m : Nat) : Nat := v2Aux m m

/-- Fuel-driven base-2 logarithm (floor). -/
def log2Aux : Nat → Nat → Nat
  | 0, _ => 0
  | fuel + 1, n => if 2 ≤ n then log2Aux fuel (n / 2) + 1 else 0

/-- Floor base-2 logarithm of `n`. -/
def log2F (n : Nat) : Nat := log2Aux n n

/-- Downward search for the largest divisor of `m` that is at most `d`
(returns `1` when the search space is exhausted). -/
def largestDivisorLEAux (m : Nat) : Nat → Nat
  | 0 => 1
  | d + 1 => if m % (d + 1) = 0 then d + 1 else largestDivisorLEAux m d

/-- Largest divisor of `m` that is at most `b` (for `1 ≤ m` and `1 ≤ b`). -/
def largestDivisorLE (m b : Nat) : Nat := largestDivisorLEAux m (min b m)

/-- Modelled from the spec: the element dtypes of the planner's descriptors
(spec section 3: "element dtype"; section 4.1: "typical integer trace data").
`itemsize` is the byte width of one element. -/
inductive DType where
  | int8
  | int16
  | int32
  | int64

/-- Byte size of a single element of the dtype. -/
def DType.itemsize : DType → Nat
  | DType.int8 => 1
  | DType.int16 => 2
  | DType.int32 => 4
  | DType.int64 => 8

/-- Display name of the dtype, as numpy prints it. -/
def DType.dname : DType → String
  | DType.int8 => "int8"
  | DType.int16 => "int16"
  | DType.int32 => "int32"
  | DType.int64 => "int64"

/-- Modelled from the spec: the two supported backends
(spec section 4.1: `backend: enum{HDF5, Zarr}`). -/
inductive Backend where
  | hdf5
  | zarr

/-- Backend name as it appears in the rendered report header. -/
def Backend.bname : Backend → String
  | Backend.hdf5 => "hdf5"
  | Backend.zarr => "zarr"

/-- Modelled from the spec: backend-specific filter pipeline (spec section 4.1:
"Zarr plans include a filter pipeline (e.g., delta filter before gzip)
reflecting typical integer trace data; HDF5 plans may omit filters"). -/
def Backend.filter_methods : Backend → List String
  | Backend.hdf5 => []
  | Backend.zarr => ["delta"]

/-- Modelled from the spec: a DatasetDescriptor (spec section 3): path of the
dataset within the container, full shape, element dtype.  The shape has the
two axes of the electrical-series datasets of spec section 8
(samples, channels); dimension sizes are integers so that the zero/negative
inputs of spec section 7 are expressible. -/
structure DatasetDescriptor where
  location : String
  maxshape0 : Int
  maxshape1 : Int
  dtype : DType

/-- Modelled from the spec: a DatasetConfiguration (spec section 3): derived
from a DatasetDescriptor; chunk shape, buffer shape, compression method and
ordered filter methods. -/
structure DatasetConfiguration where
  location : String
  maxshape : Nat × Nat
  dtype : DType
  chunk_shape : Nat × Nat
  buffer_shape : Nat × Nat
  compression_method : String
  filter_methods : List String

/-- Modelled from the spec: errors of the planner (spec section 7). -/
inductive ConfigurationError where
  | nonPositiveDimension
  | bufferNotMultipleOfChunk
  | bufferExceedsMaxshape

/-- Modelled from the spec: the fixed chunk byte budget (spec section 4.1:
"a fixed budget"; its value is pinned by the section 8 anchor, where the AP
dataset's chunk of (78125, 64) int16 elements occupies exactly 10^7 bytes). -/
def chunkBudgetBytes : Nat := 10000000

/-- Modelled from the spec: the separate, larger buffer byte budget
(spec section 4.1: "bounded by a separate (larger) memory budget"; pinned by
the section 8 anchor, where the AP buffer of (1250000, 384) int16 elements
occupies 96% of 10^9 bytes and 16 further chunks would not fit). -/
def bufferBudgetBytes : Nat := 1000000000

/-- Number of elements of width `its` bytes that fit in the chunk budget. -/
def chunkElems (its : Nat) : Nat := chunkBudgetBytes / its

/-- Modelled from the spec: channel-axis chunk extent for a dataset that fits
in the buffer budget.  The whole dataset will be buffered, so every chunk
extent must divide the corresponding axis (keeping the buffer an exact
multiple of the chunk); the channel axis is split into its largest power-of-2
factor that fits the element budget.  Anchored by the LF dataset of spec
section 8: maxshape (75000, 384) int16 gives 2 ^ min(v2 384, log2 5000000)
= 128. -/
def smallChunk1 (m1 its : Nat) : Nat := 2 ^ min (v2 m1) (log2F (chunkElems its))

/-- Modelled from the spec: sample-axis chunk extent for a dataset that fits
in the buffer budget: the largest divisor of the axis that keeps the chunk
inside the byte budget.  Anchored by the LF dataset of spec section 8:
largest divisor of 75000 at most 5000000 / 128 = 39062 is 37500. -/
def smallChunk0 (m0 m1 its : Nat) : Nat :=
  largestDivisorLE m0 (chunkElems its / smallChunk1 m1 its)

/-- Modelled from the spec: channel-axis chunk extent for a dataset larger
than the buffer budget.  The chunk byte budget is packed exactly, so the
channel extent is the largest power of two dividing both the channel axis and
the element budget.  Anchored by the AP dataset of spec section 8: maxshape
(1800000, 384) int16 gives 2 ^ min(v2 384, v2 5000000) = 64. -/
def largeChunk1 (m1 its : Nat) : Nat := 2 ^ min (v2 m1) (v2 (chunkElems its))

/-- Modelled from the spec: sample-axis chunk extent for a dataset larger than
the buffer budget: fill the remaining element budget along the sample axis.
Anchored by the AP dataset of spec section 8: 5000000 / 64 = 78125. -/
def largeChunk0 (m0 m1 its : Nat) : Nat :=
  min m0 (chunkElems its / largeChunk1 m1 its)

/-- Modelled from the spec: number of chunks batched along the sample axis of
the buffer for a dataset larger than the buffer budget (spec section 4.1:
"buffer shape is chosen as an integer multiple of chunk shape, bounded by a
separate (larger) memory budget").  Anchored by the AP dataset of spec
section 8: min(1800000 / 78125, 10^9 / (2 * 384 * 78125)) = min(23, 16) = 16,
hence buffer (1250000, 384). -/
def largeK (m0 m1 its : Nat) : Nat :=
  min (m0 / largeChunk0 m0 m1 its)
    (bufferBudgetBytes / (its * m1 * largeChunk0 m0 m1 its))

/-- Modelled from the spec: the chunk-shape / buffer-shape selection of the
DatasetConfigurationPlanner (spec sections 4.1, 8, 9) on a positive
2-axis shape `(m0, m1)` with element width `its` bytes.  Returns
(chunk_shape, buffer_shape).  A dataset no larger than one chunk budget is a
single chunk equal to the full shape (spec section 4.1 edge case); a dataset
that fits the buffer budget is buffered whole and chunked by exact divisors;
a larger dataset is chunked to pack the chunk budget and buffered with as
many sample-axis chunks as fit the buffer budget, with all channels kept in
the buffer. -/
def planShapes (m0 m1 its : Nat) : (Nat × Nat) × (Nat × Nat) :=
  if m0 * m1 * its ≤ chunkBudgetBytes then
    ((m0, m1), (m0, m1))
  else if m0 * m1 * its ≤ bufferBudgetBytes then
    ((smallChunk0 m0 m1 its, smallChunk1 m1 its), (m0, m1))
  else
    ((largeChunk0 m0 m1 its, largeChunk1 m1 its),
      (largeChunk0 m0 m1 its * largeK m0 m1 its, m1))

/-- Modelled from the spec: planning one dataset (spec sections 4.1 and 7).
Zero or negative dimension sizes fail with a ConfigurationError; otherwise
the shapes come from `planShapes` and the compression/filter settings are the
backend defaults (gzip; delta filter for Zarr). -/
def planDataset (be : Backend) (d : DatasetDescriptor) :
    Except ConfigurationError DatasetConfiguration :=
  if d.maxshape0 ≤ 0 ∨ d.maxshape1 ≤ 0 then
    Except.error ConfigurationError.nonPositiveDimension
  else
    Except.ok
      { location := d.location
      , maxshape := (d.maxshape0.toNat, d.maxshape1.toNat)
      , dtype := d.dtype
      , chunk_shape := (planShapes d.maxshape0.toNat d.maxshape1.toNat d.dtype.itemsize).1
      , buffer_shape := (planShapes d.maxshape0.toNat d.maxshape1.toNat d.dtype.itemsize).2
      , compression_method := "gzip"
      , filter_methods := be.filter_methods }

/-- Modelled from the spec: the planner contract
`plan(datasets, backend) -> sequence of DatasetConfiguration`
(spec section 4.1), one configuration per dataset, in order; the first
failing dataset fails the plan. -/
def plan (be : Backend) : List DatasetDescriptor →
    Except ConfigurationError (List DatasetConfiguration)
  | [] => Except.ok []
  | d :: rest =>
    match planDataset be d with
    | Except.error e => Except.error e
    | Except.ok cfg =>
      match plan be rest with
      | Except.error e => Except.error e
      | Except.ok cfgs => Except.ok (cfg :: cfgs)

/-- Modelled from the spec: validation of explicitly requested chunk/buffer
shapes (spec section 7: "requested chunk/buffer shapes are incompatible
(buffer not a multiple of chunk, or exceeding maxshape)"). -/
def validateRequestedShapes (maxshape chunk buffer : Nat × Nat) :
    Except ConfigurationError Unit :=
  if buffer.1 % chunk.1 ≠ 0 ∨ buffer.2 % chunk.2 ≠ 0 then
    Except.error ConfigurationError.bufferNotMultipleOfChunk
  else if maxshape.1 < buffer.1 ∨ maxshape.2 < buffer.2 then
    Except.error ConfigurationError.bufferExceedsMaxshape
  else Except.ok ()

/-- Modelled from the spec: planning one dataset with an optional explicitly
requested (chunk_shape, buffer_shape) pair (spec section 3: "optional
existing chunking hint"; spec section 7).  An incompatible request fails with
a ConfigurationError instead of returning a configuration. -/
def planDatasetWithRequest (be : Backend) (d : DatasetDescriptor)
    (request : Option ((Nat × Nat) × (Nat × Nat))) :
    Except ConfigurationError DatasetConfiguration :=
  match request with
  | none => planDataset be d
  | some (rc, rb) =>
    match planDataset be d with
    | Except.error e => Except.error e
    | Except.ok cfg =>
      match validateRequestedShapes cfg.maxshape rc rb with
      | Except.error e => Except.error e
      | Except.ok _ => Except.ok { cfg with chunk_shape := rc, buffer_shape := rb }

/-- A run of `n` dash characters, used for the report underlines. -/
def dashes (n : Nat) : String := String.mk (List.replicate n (Char.ofNat 45))

/-- The single-quote character as a string (written by code point so the file
contains no quote-mark tokens outside names). -/
def apostrophe : String := String.singleton (Char.ofNat 39)

/-- Python `repr` of a 2-tuple of integers, e.g. `(78125, 64)`. -/
def tupleRepr (t : Nat × Nat) : String :=
  "(" ++ toString t.1 ++ ", " ++ toString t.2 ++ ")"

/-- Python `repr` of a list of strings, e.g. a list holding `delta`. -/
def strListRepr (fs : List String) : String :=
  "[" ++ String.intercalate (", ") (fs.map (fun f => apostrophe ++ f ++ apostrophe)) ++ "]"

/-- Modelled from the spec: one section of the rendered report (spec
section 4.1 rendering rule), with the exact field labels, separators and
per-dataset underline of the test's expected printout
(tests/.../test_zarr_backend_configuration_model.py lines 15-38): the path,
an underline of the path's length, then maxshape/dtype, a blank line, then
chunk_shape/buffer_shape/compression_method/filter_methods. -/
def renderSection (cfg : DatasetConfiguration) : String :=
  cfg.location ++ "\n" ++ dashes cfg.location.length ++ "\n"
    ++ "  maxshape: " ++ tupleRepr cfg.maxshape ++ "\n"
    ++ "  dtype: " ++ cfg.dtype.dname ++ "\n\n"
    ++ "  chunk_shape: " ++ tupleRepr cfg.chunk_shape ++ "\n"
    ++ "  buffer_shape: " ++ tupleRepr cfg.buffer_shape ++ "\n"
    ++ "  compression_method: " ++ cfg.compression_method ++ "\n"
    ++ "  filter_methods: " ++ strListRepr cfg.filter_methods

/-- Modelled from the spec: the report header line and its underline. -/
def renderHeader (be : Backend) : String :=
  let h := "Configurable datasets identified using the " ++ be.bname ++ " backend"
  h ++ "\n" ++ dashes h.length

/-- Modelled from the spec: the deterministic multi-section text report, one
section per dataset in the order provided (spec sections 4.1 and 6). -/
def render (be : Backend) (cfgs : List DatasetConfiguration) : String :=
  "\n" ++ renderHeader be ++ "\n\n"
    ++ String.intercalate ("\n\n") (cfgs.map renderSection)

/-- What `print` writes for a plan: the rendered report plus the final
newline that `print` appends. -/
def printedOutput (be : Backend) (cfgs : List DatasetConfiguration) : String :=
  render be cfgs ++ "\n"

/-- The AP descriptor of the spec section 8 scenario. -/
def dsAP : DatasetDescriptor :=
  { location := "acquisition/TestElectricalSeriesAP/data"
  , maxshape0 := 1800000, maxshape1 := 384, dtype := DType.int16 }

/-- The LF descriptor of the spec section 8 scenario. -/
def dsLF : DatasetDescriptor :=
  { location := "acquisition/TestElectricalSeriesLF/data"
  , maxshape0 := 75000, maxshape1 := 384, dtype := DType.int16 }

/-- A descriptor whose full shape fits inside a single chunk budget. -/
def dsSmall : DatasetDescriptor :=
  { location := "acquisition/SmallSeries/data"
  , maxshape0 := 100, maxshape1 := 4, dtype := DType.int16 }

/-- A descriptor with a zero dimension size. -/
def dsZero : DatasetDescriptor :=
  { location := "acquisition/EmptySeries/data"
  , maxshape0 := 0, maxshape1 := 384, dtype := DType.int16 }

/-- The configuration the spec section 8 scenario requires for the AP
dataset. -/
def cfgAP : DatasetConfiguration :=
  { location := "acquisition/TestElectricalSeriesAP/data"
  , maxshape := (1800000, 384)
  , dtype := DType.int16
  , chunk_shape := (78125, 64)
  , buffer_shape := (1250000, 384)
  , compression_method := "gzip"
  , filter_methods := ["delta"] }

/-- The configuration the spec section 8 scenario requires for the LF
dataset. -/
def cfgLF : DatasetConfiguration :=
  { location := "acquisition/TestElectricalSeriesLF/data"
  , maxshape := (75000, 384)
  , dtype := DType.int16
  , chunk_shape := (37500, 128)
  , buffer_shape := (75000, 384)
  , compression_method := "gzip"
  , filter_methods := ["delta"] }

/-- The configuration the planner produces for `dsSmall`: a single chunk
equal to the full shape. -/
def cfgSmall : DatasetConfiguration :=
  { location := "acquisition/SmallSeries/data"
  , maxshape := (100, 4)
  , dtype := DType.int16
  , chunk_shape := (100, 4)
  , buffer_shape := (100, 4)
  , compression_method := "gzip"
  , filter_methods := ["delta"] }

/-- The exact expected printout of the spec section 8 Zarr scenario, written
as a literal, character for character as in the test
(tests/.../test_zarr_backend_configuration_model.py lines 15-38). -/
def expectedZarrReport : String :=
  "\nConfigurable datasets identified using the zarr backend\n"
    ++ "-------------------------------------------------------\n\n"
    ++ "acquisition/TestElectricalSeriesAP/data\n"
    ++ "---------------------------------------\n"
    ++ "  maxshape: (1800000, 384)\n"
    ++ "  dtype: int16\n\n"
    ++ "  chunk_shape: (78125, 64)\n"
    ++ "  buffer_shape: (1250000, 384)\n"
    ++ "  compression_method: gzip\n"
    ++ "  filter_methods: [" ++ apostrophe ++ "delta" ++ apostrophe ++ "]\n\n"
    ++ "acquisition/TestElectricalSeriesLF/data\n"
    ++ "---------------------------------------\n"
    ++ "  maxshape: (75000, 384)\n"
    ++ "  dtype: int16\n\n"
    ++ "  chunk_shape: (37500, 128)\n"
    ++ "  buffer_shape: (75000, 384)\n"
    ++ "  compression_method: gzip\n"
    ++ "  filter_methods: [" ++ apostrophe ++ "delta" ++ apostrophe ++ "]\n"

/-- The assertion message of ScanImageImagingInterface.__init__
(scanimageimaginginterface.py lines 62-65), with the code-quote characters
written by code point. -/
def missingFrequencyMessage : String :=
  "sampling frequency not found in image metadata, "
    ++ "input the frequency using the argument "
    ++ String.singleton (Char.ofNat 96) ++ "fallback_sampling_frequency"
    ++ String.singleton (Char.ofNat 96)

/-- Shallow embedding of the sampling-frequency resolution of
ScanImageImagingInterface.__init__
(src/src/neuroconv/datainterfaces/ophys/scanimage/scanimageimaginginterface.py
lines 55-69).  `parse` stands for Python's `float` conversion; the metadata
dict is an association list with first-match lookup; a missing frequency with
no fallback is the AssertionError of the source, carried as `Except.error`
with the source's message. -/
def scanImageSamplingFrequency {α : Type} (parse : String → α)
    (image_metadata : List (String × String))
    (fallback_sampling_frequency : Option α) : Except String α :=
  match image_metadata.lookup ("state.acq.frameRate") with
  | some s => Except.ok (parse s)
  | none =>
    match image_metadata.lookup ("SI.hRoiManager.scanFrameRate") with
    | some s => Except.ok (parse s)
    | none =>
      match fallback_sampling_frequency with
      | some f => Except.ok f
      | none => Except.error missingFrequencyMessage

/-- The recording-extractor state that MockSpikeGLXNIDQInterface.__init__
sets: channel ids, sampling frequency, and per-channel gains (trace contents
come from the external generate_mock_ttl_signal and are not modelled). -/
structure MockNIDQRecording where
  channel_ids : List String
  sampling_frequency : Rat
  channel_gains : List Rat

/-- A Python numeric value tagged by its runtime type.  Python arithmetic on
a float operand yields a float; numpy accepts only `int` array dimensions. -/
inductive PyNum where
  | int (n : Int)
  | float (x : Rat)

/-- The runtime error the mock constructor raises. -/
inductive PyRuntimeError where
  | typeErrorFloatShapeDim

/-- Modelling the dimension check of `np.empty`: an `int` dimension is
accepted (its value returned), a `float` dimension raises
TypeError (float object cannot be interpreted as an integer), the behaviour
of every numpy version this package can run against. -/
def npEmptyFrames : PyNum → Except PyRuntimeError Int
  | PyNum.int n => Except.ok n
  | PyNum.float _ => Except.error PyRuntimeError.typeErrorFloatShapeDim

/-- Shallow embedding of MockSpikeGLXNIDQInterface.__init__ for an explicitly
provided ttl_times list
(src/src/neuroconv/tools/testing/mock_interfaces.py lines 40-58), including
the trace-array allocation of lines 44-45: `number_of_frames =
signal_duration * sampling_frequency` is a Python float (sampling_frequency
is the float literal 25000.0), and it is passed as a dimension to
`np.empty`, which raises TypeError on a float dimension.  Only if that
allocation succeeded would the constructor reach the NumpyRecording
construction and set_channel_gains of lines 51-55, whose resulting state is
the MockNIDQRecording record.  Trace contents are not modelled: the
generate_mock_ttl_signal module is external, and the fill loop of lines
46-49 is unreachable (it would also pass the whole ttl_times rather than
ttl_times[channel_index], per the TODO of line 17).  The default-ttl_times
branch of lines 36-39 is skipped when ttl_times is provided and is outside
this embedding. -/
def MockSpikeGLXNIDQInterface (signal_duration : Rat)
    (ttl_times : List (List Rat)) (ttl_duration : Rat) :
    Except PyRuntimeError MockNIDQRecording :=
  let number_of_channels := ttl_times.length
  let channel_ids :=
    (List.range number_of_channels).map
      (fun channel_index => "nidq#XA" ++ toString channel_index)
  let sampling_frequency : Rat := 25000.0
  let number_of_frames : PyNum := PyNum.float (signal_duration * sampling_frequency)
  match npEmptyFrames number_of_frames with
  | Except.error e => Except.error e
  | Except.ok _ =>
    Except.ok
      { channel_ids := channel_ids
      , sampling_frequency := sampling_frequency
      , channel_gains := List.replicate number_of_channels (61.03515625 : Rat) }

/-- Two to the `v2Aux` power divides the argument (fuel at least the
argument). -/
theorem v2Aux_pow_dvd (fuel : Nat) : ∀ m, m ≤ fuel → 2 ^ v2Aux fuel m ∣ m := by
  induction fuel with
  | zero => intro m _; simp [v2Aux]
  | succ fuel ih =>
    intro m hm
    simp only [v2Aux]
    split_ifs with h
    · have hdvd : (2 : Nat) ∣ m := Nat.dvd_of_mod_eq_zero h.1
      have hle : m / 2 ≤ fuel := by omega
      have ihd : 2 * 2 ^ v2Aux fuel (m / 2) ∣ 2 * (m / 2) :=
        mul_dvd_mul_left 2 (ih (m / 2) hle)
      rw [Nat.mul_div_cancel' hdvd] at ihd
      have hpow : 2 ^ (v2Aux fuel (m / 2) + 1) = 2 * 2 ^ v2Aux fuel (m / 2) := by ring
      rw [hpow]
      exact ihd
    · simp

/-- Two to the 2-adic valuation of `m` divides `m`. -/
theorem v2_pow_dvd (m : Nat) : 2 ^ v2 m ∣ m := v2Aux_pow_dvd m m (Nat.le_refl m)

/-- Two to the `log2Aux` power is at most the (positive) argument. -/
theorem log2Aux_pow_le (fuel : Nat) :
    ∀ n, n ≤ fuel → 1 ≤ n → 2 ^ log2Aux fuel n ≤ n := by
  induction fuel with
  | zero => intro n h1 h2; exfalso; omega
  | succ fuel ih =>
    intro n hn h1
    simp only [log2Aux]
    split_ifs with h
    · have ihh := ih (n / 2) (by omega) (by omega)
      have hpow : 2 ^ (log2Aux fuel (n / 2) + 1) = 2 ^ log2Aux fuel (n / 2) * 2 := by ring
      rw [hpow]
      calc 2 ^ log2Aux fuel (n / 2) * 2 ≤ (n / 2) * 2 :=
            Nat.mul_le_mul ihh (Nat.le_refl 2)
        _ ≤ n := Nat.div_mul_le_self n 2
    · simpa using h1

/-- Two to the floor base-2 logarithm of a positive `n` is at most `n`. -/
theorem log2F_pow_le (n : Nat) (h : 1 ≤ n) : 2 ^ log2F n ≤ n :=
  log2Aux_pow_le n n (Nat.le_refl n) h

/-- The downward divisor search returns a divisor of `m`. -/
theorem largestDivisorLEAux_dvd (m : Nat) : ∀ d, largestDivisorLEAux m d ∣ m := by
  intro d
  induction d with
  | zero => simp [largestDivisorLEAux]
  | succ d ih =>
    simp only [largestDivisorLEAux]
    split_ifs with h
    · exact Nat.dvd_of_mod_eq_zero h
    · exact ih

/-- The downward divisor search returns at most `max 1 d`. -/
theorem largestDivisorLEAux_le (m : Nat) :
    ∀ d, largestDivisorLEAux m d ≤ max 1 d := by
  intro d
  induction d with
  | zero => simp [largestDivisorLEAux]
  | succ d ih =>
    simp only [largestDivisorLEAux]
    split_ifs with h
    · exact le_max_right 1 (d + 1)
    · exact le_trans ih (by omega)

/-- `largestDivisorLE m b` divides `m`. -/
theorem largestDivisorLE_dvd (m b : Nat) : largestDivisorLE m b ∣ m :=
  largestDivisorLEAux_dvd m (min b m)

/-- `largestDivisorLE m b` is at most `b` for positive `m` and `b`. -/
theorem largestDivisorLE_le (m b : Nat) (hb : 1 ≤ b) (hm : 1 ≤ m) :
    largestDivisorLE m b ≤ b := by
  have h := largestDivisorLEAux_le m (min b m)
  have hmax : max 1 (min b m) = min b m := by omega
  rw [hmax] at h
  exact le_trans h (Nat.min_le_left b m)

/-- Every dtype has a positive element width. -/
theorem DType.itemsize_pos (t : DType) : 1 ≤ t.itemsize := by
  cases t <;> decide

/-- Every dtype's element width is within the chunk byte budget. -/
theorem DType.itemsize_le (t : DType) : t.itemsize ≤ chunkBudgetBytes := by
  cases t <;> decide

/-- The element budget is positive for widths within the byte budget. -/
theorem chunkElems_pos (its : Nat) (h1 : 1 ≤ its) (h2 : its ≤ chunkBudgetBytes) :
    1 ≤ chunkElems its :=
  (Nat.one_le_div_iff h1).mpr h2

/-- The small-regime channel chunk extent is positive. -/
theorem smallChunk1_pos (m1 its : Nat) : 0 < smallChunk1 m1 its :=
  Nat.pos_pow_of_pos _ (by decide)

/-- The small-regime channel chunk extent divides the channel axis. -/
theorem smallChunk1_dvd (m1 its : Nat) : smallChunk1 m1 its ∣ m1 :=
  dvd_trans (pow_dvd_pow 2 (Nat.min_le_left _ _)) (v2_pow_dvd m1)

/-- The small-regime channel chunk extent fits the element budget. -/
theorem smallChunk1_le (m1 its : Nat) (hE : 1 ≤ chunkElems its) :
    smallChunk1 m1 its ≤ chunkElems its :=
  le_trans (Nat.pow_le_pow_right (by decide) (Nat.min_le_right _ _))
    (log2F_pow_le _ hE)

/-- The small-regime sample chunk extent divides the sample axis. -/
theorem smallChunk0_dvd (m0 m1 its : Nat) : smallChunk0 m0 m1 its ∣ m0 :=
  largestDivisorLE_dvd _ _

/-- The small-regime sample chunk extent fits the per-channel-slab element
budget. -/
theorem smallChunk0_le_bound (m0 m1 its : Nat) (hm0 : 1 ≤ m0)
    (hE : 1 ≤ chunkElems its) :
    smallChunk0 m0 m1 its ≤ chunkElems its / smallChunk1 m1 its :=
  largestDivisorLE_le _ _
    ((Nat.one_le_div_iff (smallChunk1_pos m1 its)).mpr (smallChunk1_le m1 its hE))
    hm0

/-- The large-regime channel chunk extent is positive. -/
theorem largeChunk1_pos (m1 its : Nat) : 0 < largeChunk1 m1 its :=
  Nat.pos_pow_of_pos _ (by decide)

/-- The large-regime channel chunk extent divides the channel axis. -/
theorem largeChunk1_dvd (m1 its : Nat) : largeChunk1 m1 its ∣ m1 :=
  dvd_trans (pow_dvd_pow 2 (Nat.min_le_left _ _)) (v2_pow_dvd m1)

/-- The large-regime channel chunk extent fits the element budget. -/
theorem largeChunk1_le (m1 its : Nat) (hE : 1 ≤ chunkElems its) :
    largeChunk1 m1 its ≤ chunkElems its :=
  le_trans (Nat.pow_le_pow_right (by decide) (Nat.min_le_right _ _))
    (Nat.le_of_dvd hE (v2_pow_dvd _))

/-- The large-regime sample chunk extent is positive. -/
theorem largeChunk0_pos (m0 m1 its : Nat) (hm0 : 1 ≤ m0)
    (hE : 1 ≤ chunkElems its) : 1 ≤ largeChunk0 m0 m1 its :=
  le_min hm0
    ((Nat.one_le_div_iff (largeChunk1_pos m1 its)).mpr (largeChunk1_le m1 its hE))

/-- The planned chunk shape never exceeds the dataset shape, axis by axis. -/
theorem planShapes_chunk_le (m0 m1 its : Nat) (hm0 : 1 ≤ m0) (hm1 : 1 ≤ m1)
    (hits : 1 ≤ its) (hb : its ≤ chunkBudgetBytes) :
    (planShapes m0 m1 its).1.1 ≤ m0 ∧ (planShapes m0 m1 its).1.2 ≤ m1 := by
  have hE : 1 ≤ chunkElems its := chunkElems_pos its hits hb
  unfold planShapes
  split_ifs with h1 h2
  · exact ⟨Nat.le_refl m0, Nat.le_refl m1⟩
  · exact ⟨Nat.le_of_dvd hm0 (smallChunk0_dvd m0 m1 its),
      Nat.le_of_dvd hm1 (smallChunk1_dvd m1 its)⟩
  · exact ⟨Nat.min_le_left _ _, Nat.le_of_dvd hm1 (largeChunk1_dvd m1 its)⟩

/-- The planned buffer shape is an exact multiple of the chunk shape along
each axis and never exceeds the dataset shape. -/
theorem planShapes_buffer_ok (m0 m1 its : Nat) (hm0 : 1 ≤ m0) (hm1 : 1 ≤ m1)
    (hits : 1 ≤ its) (hb : its ≤ chunkBudgetBytes) :
    (planShapes m0 m1 its).1.1 ∣ (planShapes m0 m1 its).2.1 ∧
    (planShapes m0 m1 its).1.2 ∣ (planShapes m0 m1 its).2.2 ∧
    (planShapes m0 m1 its).2.1 ≤ m0 ∧ (planShapes m0 m1 its).2.2 ≤ m1 := by
  have hE : 1 ≤ chunkElems its := chunkElems_pos its hits hb
  unfold planShapes
  split_ifs with h1 h2
  · exact ⟨dvd_refl m0, dvd_refl m1, Nat.le_refl m0, Nat.le_refl m1⟩
  · exact ⟨smallChunk0_dvd m0 m1 its, smallChunk1_dvd m1 its,
      Nat.le_refl m0, Nat.le_refl m1⟩
  · refine ⟨dvd_mul_right _ _, largeChunk1_dvd m1 its, ?_, Nat.le_refl m1⟩
    calc largeChunk0 m0 m1 its * largeK m0 m1 its
        ≤ largeChunk0 m0 m1 its * (m0 / largeChunk0 m0 m1 its) :=
          Nat.mul_le_mul (Nat.le_refl _) (Nat.min_le_left _ _)
      _ = (m0 / largeChunk0 m0 m1 its) * largeChunk0 m0 m1 its := Nat.mul_comm _ _
      _ ≤ m0 := Nat.div_mul_le_self m0 _

/-- The planned chunk fits the chunk byte budget and the planned buffer fits
the buffer byte budget. -/
theorem planShapes_bytes (m0 m1 its : Nat) (hm0 : 1 ≤ m0) (hm1 : 1 ≤ m1)
    (hits : 1 ≤ its) (hb : its ≤ chunkBudgetBytes) :
    (planShapes m0 m1 its).1.1 * (planShapes m0 m1 its).1.2 * its ≤ chunkBudgetBytes ∧
    (planShapes m0 m1 its).2.1 * (planShapes m0 m1 its).2.2 * its ≤ bufferBudgetBytes := by
  have hE : 1 ≤ chunkElems its := chunkElems_pos its hits hb
  unfold planShapes
  split_ifs with h1 h2
  · exact ⟨h1, le_trans h1 (by decide)⟩
  · constructor
    · have hc0 : smallChunk0 m0 m1 its ≤ chunkElems its / smallChunk1 m1 its :=
        smallChunk0_le_bound m0 m1 its hm0 hE
      have hcc : smallChunk0 m0 m1 its * smallChunk1 m1 its ≤ chunkElems its :=
        le_trans (Nat.mul_le_mul hc0 (Nat.le_refl _)) (Nat.div_mul_le_self _ _)
      calc smallChunk0 m0 m1 its * smallChunk1 m1 its * its
          ≤ chunkElems its * its := Nat.mul_le_mul hcc (Nat.le_refl its)
        _ ≤ chunkBudgetBytes := Nat.div_mul_le_self chunkBudgetBytes its
    · exact h2
  · constructor
    · have hc0 : largeChunk0 m0 m1 its ≤ chunkElems its / largeChunk1 m1 its :=
        Nat.min_le_right _ _
      have hcc : largeChunk0 m0 m1 its * largeChunk1 m1 its ≤ chunkElems its :=
        le_trans (Nat.mul_le_mul hc0 (Nat.le_refl _)) (Nat.div_mul_le_self _ _)
      calc largeChunk0 m0 m1 its * largeChunk1 m1 its * its
          ≤ chunkElems its * its := Nat.mul_le_mul hcc (Nat.le_refl its)
        _ ≤ chunkBudgetBytes := Nat.div_mul_le_self chunkBudgetBytes its
    · have hq : 0 < its * m1 * largeChunk0 m0 m1 its :=
        Nat.mul_pos (Nat.mul_pos hits hm1) (largeChunk0_pos m0 m1 its hm0 hE)
      have hk : largeK m0 m1 its * (its * m1 * largeChunk0 m0 m1 its) ≤ bufferBudgetBytes :=
        (Nat.le_div_iff_mul_le hq).mp (Nat.min_le_right _ _)
      calc largeChunk0 m0 m1 its * largeK m0 m1 its * m1 * its
          = largeK m0 m1 its * (its * m1 * largeChunk0 m0 m1 its) := by ring
        _ ≤ bufferBudgetBytes := hk

/-- A dataset whose whole shape fits the chunk byte budget is planned as a
single chunk equal to the full shape, with the buffer equal to it as well. -/
theorem planShapes_single (m0 m1 its : Nat)
    (h : m0 * m1 * its ≤ chunkBudgetBytes) :
    planShapes m0 m1 its = ((m0, m1), (m0, m1)) := by
  unfold planShapes
  rw [if_pos h]

/-- Inversion of a successful `planDataset`: the dimensions were positive and
the configuration's fields are the planner's outputs. -/
theorem planDataset_ok_elim (be : Backend) (d : DatasetDescriptor)
    (cfg : DatasetConfiguration) (h : planDataset be d = Except.ok cfg) :
    0 < d.maxshape0 ∧ 0 < d.maxshape1 ∧
    cfg.maxshape = (d.maxshape0.toNat, d.maxshape1.toNat) ∧
    cfg.dtype = d.dtype ∧
    cfg.chunk_shape = (planShapes d.maxshape0.toNat d.maxshape1.toNat d.dtype.itemsize).1 ∧
    cfg.buffer_shape = (planShapes d.maxshape0.toNat d.maxshape1.toNat d.dtype.itemsize).2 := by
  unfold planDataset at h
  by_cases hc : d.maxshape0 ≤ 0 ∨ d.maxshape1 ≤ 0
  · rw [if_pos hc] at h
    exact Except.noConfusion h
  · rw [if_neg hc] at h
    push_neg at hc
    injection h with h
    subst h
    exact ⟨hc.1, hc.2, rfl, rfl, rfl, rfl⟩

set_option maxRecDepth 100000 in
/-- C1: planning the spec section 8 descriptor set under the Zarr backend
yields chunk_shape (78125, 64), buffer_shape (1250000, 384), gzip and [delta]
for the AP dataset and chunk_shape (37500, 128), buffer_shape (75000, 384),
gzip and [delta] for the LF dataset. -/
theorem zarr_plan_exact_shapes :
    plan Backend.zarr [dsAP, dsLF] = Except.ok [cfgAP, cfgLF] := rfl

set_option maxRecDepth 100000 in
/-- C2: the rendered report of the spec section 8 Zarr plan equals the fixed
textual template character for character (header, per-dataset sections in
input order, field labels and spacing), and every per-dataset underline has
exactly the length of the dataset path it underlines. -/
theorem zarr_report_exact :
    Except.map (printedOutput Backend.zarr) (plan Backend.zarr [dsAP, dsLF])
      = Except.ok expectedZarrReport
    ∧ ∀ n : Nat, (dashes n).length = n := by
  constructor
  · rfl
  · intro n
    simp [dashes, String.length]

/-- C3: for every dataset descriptor accepted by the planner, the resulting
configuration's chunk_shape is bounded by maxshape on every axis. -/
theorem planned_chunk_le_maxshape (be : Backend) (d : DatasetDescriptor)
    (cfg : DatasetConfiguration) (h : planDataset be d = Except.ok cfg) :
    cfg.chunk_shape.1 ≤ cfg.maxshape.1 ∧ cfg.chunk_shape.2 ≤ cfg.maxshape.2 := by
  obtain ⟨h0, h1, hm, hdt, hcs, hbs⟩ := planDataset_ok_elim be d cfg h
  rw [hcs, hm]
  exact planShapes_chunk_le _ _ _ (by omega) (by omega)
    (DType.itemsize_pos d.dtype) (DType.itemsize_le d.dtype)

set_option maxRecDepth 100000 in
/-- Witness for C3 at the AP dataset of the spec section 8 scenario. -/
theorem planned_chunk_le_maxshape_witness :
    cfgAP.chunk_shape.1 ≤ cfgAP.maxshape.1 ∧ cfgAP.chunk_shape.2 ≤ cfgAP.maxshape.2 :=
  planned_chunk_le_maxshape Backend.zarr dsAP cfgAP rfl

/-- C4: for every dataset descriptor accepted by the planner, the resulting
configuration's buffer_shape is an integer multiple of chunk_shape along each
axis and is bounded by maxshape on every axis. -/
theorem planned_buffer_multiple_bounded (be : Backend) (d : DatasetDescriptor)
    (cfg : DatasetConfiguration) (h : planDataset be d = Except.ok cfg) :
    cfg.chunk_shape.1 ∣ cfg.buffer_shape.1 ∧ cfg.chunk_shape.2 ∣ cfg.buffer_shape.2 ∧
    cfg.buffer_shape.1 ≤ cfg.maxshape.1 ∧ cfg.buffer_shape.2 ≤ cfg.maxshape.2 := by
  obtain ⟨h0, h1, hm, hdt, hcs, hbs⟩ := planDataset_ok_elim be d cfg h
  rw [hcs, hbs, hm]
  exact planShapes_buffer_ok _ _ _ (by omega) (by omega)
    (DType.itemsize_pos d.dtype) (DType.itemsize_le d.dtype)

set_option maxRecDepth 100000 in
/-- Witness for C4 at the AP dataset of the spec section 8 scenario. -/
theorem planned_buffer_multiple_bounded_witness :
    cfgAP.chunk_shape.1 ∣ cfgAP.buffer_shape.1 ∧ cfgAP.chunk_shape.2 ∣ cfgAP.buffer_shape.2 ∧
    cfgAP.buffer_shape.1 ≤ cfgAP.maxshape.1 ∧ cfgAP.buffer_shape.2 ≤ cfgAP.maxshape.2 :=
  planned_buffer_multiple_bounded Backend.zarr dsAP cfgAP rfl

/-- C5: planning is deterministic; two runs of the planner on the same
descriptor list and backend produce the same outcome (the embedding is a pure
function of its inputs, so the result, success or failure, is unique). -/
theorem plan_deterministic (be : Backend) (ds : List DatasetDescriptor)
    (out1 out2 : Except ConfigurationError (List DatasetConfiguration))
    (h1 : plan be ds = out1) (h2 : plan be ds = out2) : out1 = out2 := by
  rw [← h1, ← h2]

/-- Witness for C5 at a concrete descriptor list. -/
theorem plan_deterministic_witness :
    plan Backend.zarr [dsSmall] = plan Backend.zarr [dsSmall] :=
  plan_deterministic Backend.zarr [dsSmall] _ _ rfl rfl

/-- C6: a descriptor with a zero or negative dimension size fails planning
with a ConfigurationError, and an explicitly requested chunk/buffer pair
whose buffer is not a multiple of the chunk on some axis or exceeds maxshape
on some axis fails planning with a ConfigurationError, never returning a
configuration. -/
theorem plan_configuration_error (be : Backend) (d : DatasetDescriptor)
    (request : Option ((Nat × Nat) × (Nat × Nat))) :
    (d.maxshape0 ≤ 0 ∨ d.maxshape1 ≤ 0 →
      ∃ e, planDatasetWithRequest be d request = Except.error e) ∧
    (∀ rc rb, request = some (rc, rb) →
      rb.1 % rc.1 ≠ 0 ∨ rb.2 % rc.2 ≠ 0 ∨
        d.maxshape0.toNat < rb.1 ∨ d.maxshape1.toNat < rb.2 →
      ∃ e, planDatasetWithRequest be d request = Except.error e) := by
  have herr : d.maxshape0 ≤ 0 ∨ d.maxshape1 ≤ 0 →
      planDataset be d = Except.error ConfigurationError.nonPositiveDimension := by
    intro hneg
    unfold planDataset
    rw [if_pos hneg]
  constructor
  · intro hneg
    refine ⟨ConfigurationError.nonPositiveDimension, ?_⟩
    rcases request with _ | p
    · simp only [planDatasetWithRequest]
      exact herr hneg
    · obtain ⟨rc, rb⟩ := p
      simp only [planDatasetWithRequest, herr hneg]
  · intro rc rb hreq hbad
    subst hreq
    cases hp : planDataset be d with
    | error e =>
      exact ⟨e, by simp only [planDatasetWithRequest, hp]⟩
    | ok cfg =>
      obtain ⟨h0, h1, hm, hdt, hcs, hbs⟩ := planDataset_ok_elim be d cfg hp
      by_cases hmul : rb.1 % rc.1 ≠ 0 ∨ rb.2 % rc.2 ≠ 0
      · have hv : validateRequestedShapes cfg.maxshape rc rb =
            Except.error ConfigurationError.bufferNotMultipleOfChunk := by
          unfold validateRequestedShapes
          rw [if_pos hmul]
        exact ⟨ConfigurationError.bufferNotMultipleOfChunk,
          by simp only [planDatasetWithRequest, hp, hv]⟩
      · have hex : cfg.maxshape.1 < rb.1 ∨ cfg.maxshape.2 < rb.2 := by
          rw [hm]
          rcases hbad with hx | hx | hx | hx
          · exact absurd (Or.inl hx) hmul
          · exact absurd (Or.inr hx) hmul
          · exact Or.inl hx
          · exact Or.inr hx
        have hv : validateRequestedShapes cfg.maxshape rc rb =
            Except.error ConfigurationError.bufferExceedsMaxshape := by
          unfold validateRequestedShapes
          rw [if_neg hmul, if_pos hex]
        exact ⟨ConfigurationError.bufferExceedsMaxshape,
          by simp only [planDatasetWithRequest, hp, hv]⟩

/-- Witness for C6: a zero-sized dataset fails, and an incompatible requested
chunk/buffer pair fails. -/
theorem plan_configuration_error_witness :
    (∃ e, planDatasetWithRequest Backend.zarr dsZero none = Except.error e) ∧
    (∃ e, planDatasetWithRequest Backend.zarr dsSmall (some ((3, 2), (7, 4)))
      = Except.error e) :=
  ⟨(plan_configuration_error Backend.zarr dsZero none).1 (Or.inl (by decide)),
   (plan_configuration_error Backend.zarr dsSmall (some ((3, 2), (7, 4)))).2
     (3, 2) (7, 4) rfl (Or.inl (by decide))⟩

/-- C7: a dataset whose full shape fits within a single chunk under the chunk
byte budget is planned with chunk_shape equal to the full shape, and its
buffer_shape equals the full shape as well. -/
theorem planned_single_chunk (be : Backend) (d : DatasetDescriptor)
    (cfg : DatasetConfiguration) (h : planDataset be d = Except.ok cfg)
    (hfit : cfg.maxshape.1 * cfg.maxshape.2 * cfg.dtype.itemsize ≤ chunkBudgetBytes) :
    cfg.chunk_shape = cfg.maxshape ∧ cfg.buffer_shape = cfg.maxshape := by
  obtain ⟨h0, h1, hm, hdt, hcs, hbs⟩ := planDataset_ok_elim be d cfg h
  rw [hm, hdt] at hfit
  have hs := planShapes_single d.maxshape0.toNat d.maxshape1.toNat
    d.dtype.itemsize hfit
  constructor
  · rw [hcs, hs, hm]
  · rw [hbs, hs, hm]

/-- Witness for C7 at a dataset that fits inside one chunk budget. -/
theorem planned_single_chunk_witness :
    cfgSmall.chunk_shape = cfgSmall.maxshape ∧
    cfgSmall.buffer_shape = cfgSmall.maxshape :=
  planned_single_chunk Backend.zarr dsSmall cfgSmall rfl (by decide)

/-- C8: for every dataset descriptor accepted by the planner, the chunk's
byte size (product of chunk_shape extents times the dtype element width)
stays within the fixed chunk byte budget, and the buffer's byte size stays
within the separate, larger buffer byte budget. -/
theorem planned_memory_budgets (be : Backend) (d : DatasetDescriptor)
    (cfg : DatasetConfiguration) (h : planDataset be d = Except.ok cfg) :
    cfg.chunk_shape.1 * cfg.chunk_shape.2 * cfg.dtype.itemsize ≤ chunkBudgetBytes ∧
    cfg.buffer_shape.1 * cfg.buffer_shape.2 * cfg.dtype.itemsize ≤ bufferBudgetBytes := by
  obtain ⟨h0, h1, hm, hdt, hcs, hbs⟩ := planDataset_ok_elim be d cfg h
  rw [hcs, hbs, hdt]
  exact planShapes_bytes _ _ _ (by omega) (by omega)
    (DType.itemsize_pos d.dtype) (DType.itemsize_le d.dtype)

set_option maxRecDepth 100000 in
/-- Witness for C8 at the AP dataset of the spec section 8 scenario. -/
theorem planned_memory_budgets_witness :
    cfgAP.chunk_shape.1 * cfgAP.chunk_shape.2 * cfgAP.dtype.itemsize ≤ chunkBudgetBytes ∧
    cfgAP.buffer_shape.1 * cfgAP.buffer_shape.2 * cfgAP.dtype.itemsize ≤ bufferBudgetBytes :=
  planned_memory_budgets Backend.zarr dsAP cfgAP rfl

/-- C9: ScanImageImagingInterface resolves the sampling frequency by
preferring the metadata key state.acq.frameRate, then
SI.hRoiManager.scanFrameRate, then the fallback argument, and the constructor
fails with the missing-frequency assertion message exactly when neither key
is present and the fallback is None. -/
theorem scanimage_sampling_frequency_resolution {α : Type} (parse : String → α)
    (md : List (String × String)) (fb : Option α) :
    (scanImageSamplingFrequency parse md fb = Except.error missingFrequencyMessage ↔
      md.lookup ("state.acq.frameRate") = none ∧
      md.lookup ("SI.hRoiManager.scanFrameRate") = none ∧ fb = none) ∧
    (∀ s, md.lookup ("state.acq.frameRate") = some s →
      scanImageSamplingFrequency parse md fb = Except.ok (parse s)) ∧
    (∀ s, md.lookup ("state.acq.frameRate") = none →
      md.lookup ("SI.hRoiManager.scanFrameRate") = some s →
      scanImageSamplingFrequency parse md fb = Except.ok (parse s)) ∧
    (∀ f, md.lookup ("state.acq.frameRate") = none →
      md.lookup ("SI.hRoiManager.scanFrameRate") = none → fb = some f →
      scanImageSamplingFrequency parse md fb = Except.ok f) := by
  rcases h1 : md.lookup ("state.acq.frameRate") with _ | s1 <;>
    rcases h2 : md.lookup ("SI.hRoiManager.scanFrameRate") with _ | s2 <;>
    rcases h3 : fb with _ | f <;>
    simp [scanImageSamplingFrequency, h1, h2, h3]

/-- Witness for C9: with no metadata keys and a provided fallback, the
fallback frequency is used. -/
theorem scanimage_sampling_frequency_resolution_witness :
    scanImageSamplingFrequency (fun s => s) ([] : List (String × String))
      (some ("30.0")) = Except.ok ("30.0") :=
  (scanimage_sampling_frequency_resolution (fun s => s) [] (some ("30.0"))).2.2.2
    ("30.0") rfl rfl rfl

/-- C10: the claim describes the state MockSpikeGLXNIDQInterface.__init__ is
meant to build (n channels with ids nidq#XA0 through nidq#XA(n-1), sampling
frequency 25000.0, gain 61.03515625 on each), but for every explicitly
provided ttl_times the constructor raises TypeError at the np.empty trace
allocation of lines 44-45, whose sample dimension
signal_duration * 25000.0 is a Python float, before the recording extractor
or the gains exist; so the claimed constructed state is unreachable in this
copy of the code (upstream converts the frame count to int). -/
theorem mock_nidq_constructor_type_error (signal_duration : Rat)
    (ttl_times : List (List Rat)) (ttl_duration : Rat) :
    MockSpikeGLXNIDQInterface signal_duration ttl_times ttl_duration =
      Except.error PyRuntimeError.typeErrorFloatShapeDim := rfl
